import Mathlib

/-!
Shallow embedding of `src/transmitter.py` (radar transmitter configuration).

Numbers are modelled as rationals (`ℚ`); NumPy 1-d arrays as `List ℚ`;
complex modulation vectors as `List ℂ`.  Fallible Python code is modelled
with `Except TxError`.  Line references below are to `src/transmitter.py`.
-/

unseal Rat.add Rat.sub Rat.mul Rat.inv

namespace RadarSim

/-- Errors that construction can raise.  `valueError` models Python's
`ValueError` (the class the source raises for configuration mistakes — the
spec's `ConfigError`); `indexError` models `IndexError` from indexing an
empty array; `emptyReduce` models NumPy's `ValueError` raised when
`np.max`/`np.min` is applied to a zero-size array; `typeError` models the
`TypeError` raised by `len()` on a 0-d array. -/
inductive TxError where
  | valueError (msg : String)
  | indexError
  | emptyReduce
  | typeError
deriving DecidableEq

/-- A Python argument that may be a bare number or a sequence — the
`isinstance(x, (list, tuple, np.ndarray))` dispatch used throughout the
source. -/
inductive PyVal where
  | scalar (x : ℚ)
  | arr (xs : List ℚ)
deriving DecidableEq

/-- Normalization of `f` (src 206-209): a sequence is kept as an array, a
scalar `x` becomes `[x, x]`. -/
def normalizeF : PyVal → List ℚ
  | .arr xs => xs
  | .scalar x => [x, x]

/-- Normalization of `t` (src 211-214): a sequence is shifted by its first
element (`np.array(t) - t[0]`, an `IndexError` when empty), a scalar `x`
becomes `[0, x]`. -/
def normalizeT : PyVal → Except TxError (List ℚ)
  | .arr [] => .error .indexError
  | .arr (t0 :: ts) => .ok ((t0 :: ts).map (fun x => x - t0))
  | .scalar x => .ok [0, x]

/-- Model of `np.max` on a 1-d array (raises on a zero-size array). -/
def npMax : List ℚ → Except TxError ℚ
  | [] => .error .emptyReduce
  | x :: xs => .ok (xs.foldl max x)

/-- Model of `np.min` on a 1-d array (raises on a zero-size array). -/
def npMin : List ℚ → Except TxError ℚ
  | [] => .error .emptyReduce
  | x :: xs => .ok (xs.foldl min x)

/-- Defaulting used for `f_offset` (src 224-231) and `prp` (src 235-242):
`None` and a bare scalar broadcast (`x + np.zeros(pulses)`) to length
`pulses`; a sequence is used as-is via `np.array`. -/
def broadcastOpt (v : Option PyVal) (dflt : ℚ) (pulses : ℕ) : List ℚ :=
  match v with
  | none => List.replicate pulses dflt
  | some (.scalar x) => List.replicate pulses x
  | some (.arr xs) => xs

/-- Model of `np.cumsum` with an explicit running total `acc`. -/
def cumsumFrom (acc : ℚ) : List ℚ → List ℚ
  | [] => []
  | x :: xs => (acc + x) :: cumsumFrom (acc + x) xs

/-- Model of `np.cumsum` on a 1-d array (src 245). -/
def cumsum (xs : List ℚ) : List ℚ := cumsumFrom 0 xs

/-- The `waveform_prop` dictionary assembled in `__init__` (src 216-245). -/
structure WaveformProp where
  f : List ℚ
  t : List ℚ
  bandwidth : ℚ
  pulse_length : ℚ
  pulses : ℕ
  f_offset : List ℚ
  prp : List ℚ
  pulse_start_time : List ℚ
deriving DecidableEq

/-- Model of `if cond: raise ValueError(...)` (and of the broadcast errors
NumPy raises itself): an error when the condition holds, no-op otherwise. -/
def checkE (b : Prop) [Decidable b] (e : TxError) : Except TxError Unit :=
  if b then .error e else .ok ()

/-- Source `Transmitter.validate_waveform_prop` (src 272-293): the four
checks in source order, each raising a `ValueError` with the source's
message. -/
def validate_waveform_prop (wf : WaveformProp) : Except TxError Unit :=
  checkE (wf.f.length ≠ wf.t.length)
    (.valueError "Lengths of `f` and `t` should be the same") >>= fun _ =>
  checkE (wf.f_offset.length ≠ wf.pulses)
    (.valueError "Lengths of `f_offset` and `pulses` should be the same") >>= fun _ =>
  checkE (wf.prp.length ≠ wf.pulses)
    (.valueError "Length of `prp` should equal to the length of `pulses`") >>= fun _ =>
  npMin wf.prp >>= fun m =>
  checkE (m < wf.pulse_length)
    (.valueError "`prp` should be larger than `pulse_length`")

/-- Indexing `xs[-1]` on a 1-d array (an `IndexError` when empty),
used for `pulse_length = t[-1]` (src 219). -/
def getLastE (xs : List ℚ) : Except TxError ℚ :=
  match xs.getLast? with
  | some x => .ok x
  | none => .error .indexError

/-- Indexing `xs[0]` on a 1-d array (an `IndexError` when empty),
used for `prp[0]` (src 245). -/
def headE (xs : List ℚ) : Except TxError ℚ :=
  match xs.head? with
  | some x => .ok x
  | none => .error .indexError

/-- Waveform-normalization stage of `Transmitter.__init__` (src 204-247):
builds the `waveform_prop` record in source order (`t` shift, bandwidth,
`t[-1]`, `f_offset`, `prp`, `prp[0]`/cumsum, then validation). -/
def buildWaveform (f t : PyVal) (pulses : ℕ) (f_offset prp : Option PyVal) :
    Except TxError WaveformProp :=
  normalizeT t >>= fun tArr =>
  npMax (normalizeF f) >>= fun fMax =>
  npMin (normalizeF f) >>= fun fMin =>
  getLastE tArr >>= fun pulseLength =>
  headE (broadcastOpt prp pulseLength pulses) >>= fun prp0 =>
  validate_waveform_prop
    { f := normalizeF f, t := tArr, bandwidth := fMax - fMin,
      pulse_length := pulseLength, pulses := pulses,
      f_offset := broadcastOpt f_offset 0 pulses,
      prp := broadcastOpt prp pulseLength pulses,
      pulse_start_time :=
        (cumsum (broadcastOpt prp pulseLength pulses)).map (fun x => x - prp0) } >>= fun _ =>
  Except.ok
    { f := normalizeF f, t := tArr, bandwidth := fMax - fMin,
      pulse_length := pulseLength, pulses := pulses,
      f_offset := broadcastOpt f_offset 0 pulses,
      prp := broadcastOpt prp pulseLength pulses,
      pulse_start_time :=
        (cumsum (broadcastOpt prp pulseLength pulses)).map (fun x => x - prp0) }

/-- The `rf_prop` dictionary (src 199-201). -/
structure RfProp where
  tx_power : ℚ
  pn_f : Option (List ℚ)
  pn_power : Option (List ℚ)
deriving DecidableEq

/-- Source `Transmitter.validate_rf_prop` (src 254-270): `pn_f` and
`pn_power` must be both absent or both present with equal length. -/
def validate_rf_prop (rf : RfProp) : Except TxError Unit :=
  match rf.pn_f, rf.pn_power with
  | some _, none =>
    .error (.valueError "Lengths of `pn_f` and `pn_power` should be the same")
  | none, some _ =>
    .error (.valueError "Lengths of `pn_f` and `pn_power` should be the same")
  | some a, some b =>
    if a.length ≠ b.length then
      .error (.valueError "Lengths of `pn_f` and `pn_power` should be the same")
    else .ok ()
  | none, none => .ok ()

/-- Complex phase factor `np.exp(1j * phs / 180 * np.pi)` used by both
modulation processors (src 340 and 372); `phs` is in degrees. -/
noncomputable def expj (phs : ℚ) : ℂ :=
  Complex.exp (Complex.I * ((phs : ℂ) / 180) * (Real.pi : ℂ))

/-- Intermediate value of `amp`/`phs` inside `process_waveform_modulation`:
a user-supplied scalar or sequence, or the 0-d array produced by
`np.ones_like`/`np.zeros_like` of a bare scalar (on which the later `len`
call raises `TypeError`). -/
inductive MVal where
  | scalar (x : ℚ)
  | arr (xs : List ℚ)
  | zerod (x : ℚ)
deriving DecidableEq

/-- Coercion of a user-supplied argument into the intermediate form. -/
def MVal.ofPy : PyVal → MVal
  | .scalar x => .scalar x
  | .arr xs => .arr xs

/-- Model of `np.ones_like` (src 315). -/
def onesLike : PyVal → MVal
  | .scalar _ => .zerod 1
  | .arr xs => .arr (List.replicate xs.length 1)

/-- Model of `np.zeros_like` (src 317). -/
def zerosLike : PyVal → MVal
  | .scalar _ => .zerod 0
  | .arr xs => .arr (List.replicate xs.length 0)

/-- Scalarization of `amp`/`phs` (src 322-330): a sequence is kept, a bare
scalar `x` becomes `[x, x]`; a 0-d array survives `np.array` unchanged and
makes the later `len` call (src 337) raise `TypeError`. -/
def seqOfMVal : MVal → Except TxError (List ℚ)
  | .scalar x => .ok [x, x]
  | .arr xs => .ok xs
  | .zerod _ => .error .typeError

/-- Waveform-modulation record returned by `process_waveform_modulation`
(dict keys `enabled`, `var`, `t`). -/
structure WaveformMod where
  enabled : Bool
  var : Option (List ℂ)
  t : Option (List ℚ)

/-- Amp defaulting (src 314-317): `phs` without `amp` fills `amp` with
`np.ones_like(phs)`; otherwise `amp` is passed through. -/
def defaultAmp (amp phs : Option PyVal) : Option MVal :=
  match phs, amp with
  | some p, none => some (onesLike p)
  | _, some a => some (MVal.ofPy a)
  | none, none => none

/-- Phs defaulting (src 314-317): `amp` without `phs` fills `phs` with
`np.zeros_like(amp)`; otherwise `phs` is passed through. -/
def defaultPhs (amp phs : Option PyVal) : Option MVal :=
  match phs, amp with
  | none, some a => some (zerosLike a)
  | some p, _ => some (MVal.ofPy p)
  | none, none => none

/-- Scalarization of `mod_t` (src 332-335): a sequence is kept, a bare
scalar `x` becomes `[0, x]`. -/
def modTNorm : PyVal → List ℚ
  | .scalar x => [0, x]
  | .arr xs => xs

/-- Source `Transmitter.process_waveform_modulation` (src 295-345):
amp/phs defaulting, the disabled-record early return, scalarization,
length checks and the complex modulation vector. -/
noncomputable def process_waveform_modulation (mod_t amp phs : Option PyVal) :
    Except TxError WaveformMod :=
  match mod_t, defaultAmp amp phs, defaultPhs amp phs with
  | some mt, some aM, some pM =>
    seqOfMVal aM >>= fun ampL =>
    seqOfMVal pM >>= fun phsL =>
    checkE (ampL.length ≠ phsL.length)
      (.valueError "Lengths of `amp` and `phs` should be the same") >>= fun _ =>
    checkE ((modTNorm mt).length ≠
        (List.zipWith (fun (a p : ℚ) => (a : ℂ) * expj p) ampL phsL).length)
      (.valueError "Lengths of `mod_t`, `amp`, and `phs` should be the same") >>= fun _ =>
    Except.ok { enabled := true,
                var := some (List.zipWith (fun (a p : ℚ) => (a : ℂ) * expj p) ampL phsL),
                t := some (modTNorm mt) }
  | _, _, _ => Except.ok { enabled := false, var := none, t := none }

/-- Source `Transmitter.process_pulse_modulation` (src 347-372); `pulses`
stands for the `self.waveform_prop["pulses"]` field read there. -/
noncomputable def process_pulse_modulation (pulses : ℕ)
    (pulse_amp pulse_phs : List ℚ) : Except TxError (List ℂ) :=
  if pulse_amp.length ≠ pulses then
    .error (.valueError "Lengths of `pulse_amp` and `pulses` should be the same")
  else if pulse_phs.length ≠ pulses then
    .error (.valueError "Length of `pulse_phs` and `pulses` should be the same")
  else
    .ok (List.zipWith (fun (a p : ℚ) => (a : ℂ) * expj p) pulse_amp pulse_phs)

/-- A transmitter-channel descriptor dictionary.  `location` is required by
the source (a missing key would make the row assignment at src 424 fail);
every other key is optional with the documented default.  Complex
polarization components are modelled as (real, imaginary) pairs of
rationals, matching the `complex128` entries NumPy would produce. -/
structure TxChannel where
  location : List ℚ
  polarization : Option (List (ℚ × ℚ)) := none
  delay : Option ℚ := none
  grid : Option ℚ := none
  azimuth_angle : Option (List ℚ) := none
  azimuth_pattern : Option (List ℚ) := none
  elevation_angle : Option (List ℚ) := none
  elevation_pattern : Option (List ℚ) := none
  pulse_amp : Option (List ℚ) := none
  pulse_phs : Option (List ℚ) := none
  mod_t : Option PyVal := none
  amp : Option PyVal := none
  phs : Option PyVal := none

/-- Per-channel data produced by one iteration of the loop in
`process_txchannel_prop` (src 420-468).  The `polarization` field is the
row written into the `float64` array `txch_prop["polarization"]`
(allocated by `np.zeros((size, 3))` at src 398): NumPy's value cast from
`complex128` to `float64` keeps only the real part of each component
(emitting a `ComplexWarning`), so the stored row is the elementwise real
part of the supplied vector. -/
structure ChannelResult where
  delay : ℚ
  grid : ℚ
  location : List ℚ
  polarization : List ℚ
  waveform_mod : WaveformMod
  pulse_mod : List ℂ
  az_angle : List ℚ
  az_pattern : List ℚ
  el_angle : List ℚ
  el_pattern : List ℚ
  antenna_gain : ℚ

/-- Loop body of `process_txchannel_prop` (src 420-468), in source order:
delay, grid, location, polarization, waveform modulation, pulse modulation
(with channel-level defaults, src 437-440), azimuth pattern (length check,
peak extraction, normalization), elevation pattern (length check,
normalization to its own peak). -/
noncomputable def processChannel (wf : WaveformProp) (ch : TxChannel) :
    Except TxError ChannelResult :=
  checkE (ch.location.length ≠ 3)
    (.valueError "could not broadcast input array") >>= fun _ =>
  checkE ((ch.polarization.getD [(0, 0), (0, 0), (1, 0)]).length ≠ 3)
    (.valueError "could not broadcast input array") >>= fun _ =>
  process_waveform_modulation ch.mod_t ch.amp ch.phs >>= fun wm =>
  process_pulse_modulation wf.pulses
    (ch.pulse_amp.getD (List.replicate wf.pulses 1))
    (ch.pulse_phs.getD (List.replicate wf.pulses 0)) >>= fun pm =>
  checkE ((ch.azimuth_angle.getD [-90, 90]).length ≠
      (ch.azimuth_pattern.getD [0, 0]).length)
    (.valueError
      "Lengths of `azimuth_angle` and `azimuth_pattern` should be the same") >>= fun _ =>
  npMax (ch.azimuth_pattern.getD [0, 0]) >>= fun gain =>
  checkE ((ch.elevation_angle.getD [-90, 90]).length ≠
      (ch.elevation_pattern.getD [0, 0]).length)
    (.valueError
      "Lengths of `elevation_angle` and `elevation_pattern` should be the same") >>= fun _ =>
  npMax (ch.elevation_pattern.getD [0, 0]) >>= fun elMax =>
  Except.ok
    { delay := ch.delay.getD 0, grid := ch.grid.getD 1, location := ch.location,
      polarization := (ch.polarization.getD [(0, 0), (0, 0), (1, 0)]).map Prod.fst,
      waveform_mod := wm, pulse_mod := pm,
      az_angle := ch.azimuth_angle.getD [-90, 90],
      az_pattern := (ch.azimuth_pattern.getD [0, 0]).map (fun x => x - gain),
      el_angle := ch.elevation_angle.getD [-90, 90],
      el_pattern := (ch.elevation_pattern.getD [0, 0]).map (fun x => x - elMax),
      antenna_gain := gain }

/-- Sequencing of the per-channel loop: the first failing channel aborts the
whole construction, exactly like the raise inside the source loop. -/
noncomputable def mapChannels (g : TxChannel → Except TxError ChannelResult) :
    List TxChannel → Except TxError (List ChannelResult)
  | [] => .ok []
  | c :: cs =>
    g c >>= fun r =>
    mapChannels g cs >>= fun rs =>
    Except.ok (r :: rs)

/-- The `txchannel_prop` dictionary (src 390-418).  The source preallocates
batched arrays and fills one row per loop iteration; since iterations are
independent, this is modelled as per-channel results transposed into the
batched record. -/
structure TxChannelProp where
  size : ℕ
  delay : List ℚ
  grid : List ℚ
  locations : List (List ℚ)
  polarization : List (List ℚ)
  waveform_mod : List WaveformMod
  pulse_mod : List (List ℂ)
  az_angles : List (List ℚ)
  az_patterns : List (List ℚ)
  el_angles : List (List ℚ)
  el_patterns : List (List ℚ)
  antenna_gains : List ℚ

/-- Source `Transmitter.process_txchannel_prop` (src 374-470). -/
noncomputable def process_txchannel_prop (wf : WaveformProp)
    (channels : List TxChannel) : Except TxError TxChannelProp :=
  mapChannels (processChannel wf) channels >>= fun rs =>
  Except.ok
    { size := channels.length,
      delay := rs.map ChannelResult.delay,
      grid := rs.map ChannelResult.grid,
      locations := rs.map ChannelResult.location,
      polarization := rs.map ChannelResult.polarization,
      waveform_mod := rs.map ChannelResult.waveform_mod,
      pulse_mod := rs.map ChannelResult.pulse_mod,
      az_angles := rs.map ChannelResult.az_angle,
      az_patterns := rs.map ChannelResult.az_pattern,
      el_angles := rs.map ChannelResult.el_angle,
      el_patterns := rs.map ChannelResult.el_pattern,
      antenna_gains := rs.map ChannelResult.antenna_gain }

/-- The constructed transmitter: the three property records built by
`Transmitter.__init__`. -/
structure Transmitter where
  rf_prop : RfProp
  waveform_prop : WaveformProp
  txchannel_prop : TxChannelProp

/-- Default channel list used when `channels is None` (src 249-250). -/
def defaultChannels : List TxChannel := [{ location := [0, 0, 0] }]

/-- Source `Transmitter.__init__` (src 183-252), with the source's
parameter order: RF validation first, then the waveform stage, then the
channel stage on the supplied or default channel list. -/
noncomputable def Transmitter.init (f t : PyVal) (tx_power : ℚ) (pulses : ℕ)
    (prp f_offset : Option PyVal) (pn_f pn_power : Option (List ℚ))
    (channels : Option (List TxChannel)) : Except TxError Transmitter :=
  validate_rf_prop { tx_power := tx_power, pn_f := pn_f, pn_power := pn_power } >>= fun _ =>
  buildWaveform f t pulses f_offset prp >>= fun wf =>
  process_txchannel_prop wf (channels.getD defaultChannels) >>= fun txp =>
  Except.ok { rf_prop := { tx_power := tx_power, pn_f := pn_f, pn_power := pn_power },
              waveform_prop := wf, txchannel_prop := txp }

/-! Statement-side helpers (total versions of the normalizations, used to
phrase properties about the embedded code). -/

/-- Total version of the `t` normalization: agrees with `normalizeT`
whenever the input is a scalar or a nonempty sequence. -/
def tNorm : PyVal → List ℚ
  | .scalar x => [0, x]
  | .arr [] => []
  | .arr (t0 :: ts) => (t0 :: ts).map (fun x => x - t0)

/-- Nonemptiness of a scalar-or-sequence argument (a bare scalar counts as
nonempty, since its normalization is a 2-element array). -/
def PyVal.nonempty : PyVal → Bool
  | .scalar _ => true
  | .arr xs => !xs.isEmpty

/-- Nonemptiness of an optional scalar-or-sequence argument (`None` counts,
since its defaulting broadcasts a scalar). -/
def optNonempty : Option PyVal → Bool
  | none => true
  | some v => v.nonempty

/-- Total minimum of a list (default value for the empty list). -/
def listMinD : List ℚ → ℚ → ℚ
  | [], d => d
  | x :: xs, _ => xs.foldl min x

/-- Total maximum of a list (default value for the empty list). -/
def listMaxD : List ℚ → ℚ → ℚ
  | [], d => d
  | x :: xs, _ => xs.foldl max x

/-- The four waveform invariants of the spec, phrased over the normalized
inputs: `len(f) == len(t)`, `len(f_offset) == pulses`, `len(prp) == pulses`
and `min(prp) ≥ pulse_length`.  `waveformViolation` holds when at least one
of them is broken. -/
def waveformViolation (f t : PyVal) (pulses : ℕ) (f_offset prp : Option PyVal) : Prop :=
  (normalizeF f).length ≠ (tNorm t).length
  ∨ (broadcastOpt f_offset 0 pulses).length ≠ pulses
  ∨ (broadcastOpt prp ((tNorm t).getLastD 0) pulses).length ≠ pulses
  ∨ listMinD (broadcastOpt prp ((tNorm t).getLastD 0) pulses) 0 < (tNorm t).getLastD 0

instance (f t : PyVal) (pulses : ℕ) (f_offset prp : Option PyVal) :
    Decidable (waveformViolation f t pulses f_offset prp) := by
  unfold waveformViolation; infer_instance

instance exceptDecEq {ε α : Type} [DecidableEq ε] [DecidableEq α] :
    DecidableEq (Except ε α) := fun a b =>
  match a, b with
  | .ok x, .ok y =>
    if h : x = y then .isTrue (by rw [h]) else .isFalse (by simp [h])
  | .error e, .error e' =>
    if h : e = e' then .isTrue (by rw [h]) else .isFalse (by simp [h])
  | .ok _, .error _ => .isFalse (by simp)
  | .error _, .ok _ => .isFalse (by simp)

/-! Basic lemmas about the `Except` monad and the helpers. -/

@[simp] theorem ok_bind {α β : Type} (a : α) (g : α → Except TxError β) :
    (Except.ok a >>= g) = g a := rfl

@[simp] theorem error_bind {α β : Type} (e : TxError) (g : α → Except TxError β) :
    ((Except.error e : Except TxError α) >>= g) = Except.error e := rfl

@[simp] theorem pure_eq_ok {α : Type} (a : α) :
    (pure a : Except TxError α) = Except.ok a := rfl

theorem normalizeT_ok {t : PyVal} (ht : t.nonempty = true) :
    normalizeT t = .ok (tNorm t) ∧ tNorm t ≠ [] := by
  cases t with
  | scalar x => exact ⟨rfl, by simp [tNorm]⟩
  | arr xs =>
    cases xs with
    | nil => simp [PyVal.nonempty] at ht
    | cons a as => exact ⟨rfl, by simp [tNorm]⟩

theorem npMax_of_ne_nil {xs : List ℚ} (h : xs ≠ []) :
    npMax xs = .ok (listMaxD xs 0) := by
  cases xs with
  | nil => exact absurd rfl h
  | cons a as => rfl

theorem npMin_of_ne_nil {xs : List ℚ} (h : xs ≠ []) :
    npMin xs = .ok (listMinD xs 0) := by
  cases xs with
  | nil => exact absurd rfl h
  | cons a as => rfl

theorem normalizeF_ne_nil {f : PyVal} (hf : f.nonempty = true) :
    normalizeF f ≠ [] := by
  cases f with
  | scalar x => simp [normalizeF]
  | arr xs => cases xs <;> simp_all [normalizeF, PyVal.nonempty]

theorem broadcastOpt_ne_nil {v : Option PyVal} {d : ℚ} {pulses : ℕ}
    (hv : optNonempty v = true) (hp : 1 ≤ pulses) :
    broadcastOpt v d pulses ≠ [] := by
  cases v with
  | none => simp [broadcastOpt]; omega
  | some pv =>
    cases pv with
    | scalar x => simp [broadcastOpt]; omega
    | arr xs => cases xs <;> simp_all [broadcastOpt, optNonempty, PyVal.nonempty]

theorem cumsumFrom_get? (xs : List ℚ) :
    ∀ (acc : ℚ) (i : ℕ), i < xs.length →
      (cumsumFrom acc xs).get? i = some (acc + (xs.take (i + 1)).sum) := by
  induction xs with
  | nil => intro acc i h; simp at h
  | cons a as ih =>
    intro acc i h
    cases i with
    | zero => simp [cumsumFrom]
    | succ j =>
      have hj : j < as.length := by simpa using h
      simp only [cumsumFrom, List.get?_cons_succ, List.take_succ_cons, List.sum_cons]
      rw [ih (acc + a) j hj]
      ring_nf

theorem cumsum_length (xs : List ℚ) : (cumsum xs).length = xs.length := by
  suffices h : ∀ acc, (cumsumFrom acc xs).length = xs.length by exact h 0
  induction xs with
  | nil => intro acc; rfl
  | cons a as ih => intro acc; simp [cumsumFrom, ih]

theorem getLastE_ok_iff {xs : List ℚ} {pl : ℚ} :
    getLastE xs = .ok pl ↔ xs.getLast? = some pl := by
  cases hx : xs.getLast? <;> simp [getLastE, hx]

theorem headE_ok_iff {xs : List ℚ} {x : ℚ} :
    headE xs = .ok x ↔ xs.head? = some x := by
  cases hx : xs.head? <;> simp [headE, hx]

/-- Decomposition of a successful waveform build: every field of the
resulting record is determined by the inputs, and validation succeeded. -/
theorem buildWaveform_eq_ok {f t : PyVal} {pulses : ℕ}
    {f_offset prp : Option PyVal} {wf : WaveformProp}
    (h : buildWaveform f t pulses f_offset prp = .ok wf) :
    ∃ tArr pl p0,
      normalizeT t = .ok tArr ∧ tArr.getLast? = some pl ∧
      wf.f = normalizeF f ∧ wf.t = tArr ∧ wf.pulses = pulses ∧
      wf.pulse_length = pl ∧
      wf.f_offset = broadcastOpt f_offset 0 pulses ∧
      wf.prp = broadcastOpt prp pl pulses ∧
      wf.prp.head? = some p0 ∧
      wf.pulse_start_time = (cumsum wf.prp).map (fun x => x - p0) ∧
      validate_waveform_prop wf = .ok () := by
  unfold buildWaveform at h
  cases hT : normalizeT t with
  | error e => rw [hT, error_bind] at h; simp at h
  | ok tArr =>
  rw [hT, ok_bind] at h
  cases hM : npMax (normalizeF f) with
  | error e => rw [hM, error_bind] at h; simp at h
  | ok fMax =>
  rw [hM, ok_bind] at h
  cases hm : npMin (normalizeF f) with
  | error e => rw [hm, error_bind] at h; simp at h
  | ok fMin =>
  rw [hm, ok_bind] at h
  cases hL : getLastE tArr with
  | error e => rw [hL, error_bind] at h; simp at h
  | ok pl =>
  rw [hL, ok_bind] at h
  cases hH : headE (broadcastOpt prp pl pulses) with
  | error e => rw [hH, error_bind] at h; simp at h
  | ok p0 =>
  rw [hH, ok_bind] at h
  cases hV : validate_waveform_prop
      { f := normalizeF f, t := tArr, bandwidth := fMax - fMin,
        pulse_length := pl, pulses := pulses,
        f_offset := broadcastOpt f_offset 0 pulses,
        prp := broadcastOpt prp pl pulses,
        pulse_start_time :=
          (cumsum (broadcastOpt prp pl pulses)).map (fun x => x - p0) } with
  | error e => rw [hV, error_bind] at h; simp at h
  | ok u =>
  cases u
  rw [hV, ok_bind] at h
  simp only [Except.ok.injEq] at h
  subst h
  exact ⟨tArr, pl, p0, rfl, getLastE_ok_iff.mp hL, rfl, rfl, rfl, rfl, rfl, rfl,
    headE_ok_iff.mp hH, rfl, hV⟩

/-- Composition form of a successful waveform build. -/
theorem buildWaveform_ok_of {f t : PyVal} {pulses : ℕ}
    {f_offset prp : Option PyVal} {tArr : List ℚ} {fMax fMin pl p0 : ℚ}
    (hT : normalizeT t = .ok tArr)
    (hM : npMax (normalizeF f) = .ok fMax)
    (hm : npMin (normalizeF f) = .ok fMin)
    (hL : tArr.getLast? = some pl)
    (hH : (broadcastOpt prp pl pulses).head? = some p0)
    (hV : validate_waveform_prop
      { f := normalizeF f, t := tArr, bandwidth := fMax - fMin,
        pulse_length := pl, pulses := pulses,
        f_offset := broadcastOpt f_offset 0 pulses,
        prp := broadcastOpt prp pl pulses,
        pulse_start_time :=
          (cumsum (broadcastOpt prp pl pulses)).map (fun x => x - p0) } = .ok ()) :
    buildWaveform f t pulses f_offset prp = .ok
      { f := normalizeF f, t := tArr, bandwidth := fMax - fMin,
        pulse_length := pl, pulses := pulses,
        f_offset := broadcastOpt f_offset 0 pulses,
        prp := broadcastOpt prp pl pulses,
        pulse_start_time :=
          (cumsum (broadcastOpt prp pl pulses)).map (fun x => x - p0) } := by
  unfold buildWaveform
  rw [hT, ok_bind, hM, ok_bind, hm, ok_bind, getLastE_ok_iff.mpr hL, ok_bind,
    headE_ok_iff.mpr hH, ok_bind, hV, ok_bind]

/-- Error-propagation form of a failed waveform build inside `__init__`. -/
theorem init_error_of_buildWaveform {f t : PyVal} {tx_power : ℚ} {pulses : ℕ}
    {prp f_offset : Option PyVal} {channels : Option (List TxChannel)} {e : TxError}
    (hrf : validate_rf_prop { tx_power := tx_power, pn_f := none, pn_power := none } = .ok ())
    (hw : buildWaveform f t pulses f_offset prp = .error e) :
    Transmitter.init f t tx_power pulses prp f_offset none none channels = .error e := by
  unfold Transmitter.init
  rw [hrf, ok_bind, hw, error_bind]

/-- Decomposition of a successful construction into its three stages. -/
theorem init_eq_ok {f t : PyVal} {tx_power : ℚ} {pulses : ℕ}
    {prp f_offset : Option PyVal} {pn_f pn_power : Option (List ℚ)}
    {channels : Option (List TxChannel)} {cfg : Transmitter}
    (h : Transmitter.init f t tx_power pulses prp f_offset pn_f pn_power channels = .ok cfg) :
    validate_rf_prop { tx_power := tx_power, pn_f := pn_f, pn_power := pn_power } = .ok ()
    ∧ buildWaveform f t pulses f_offset prp = .ok cfg.waveform_prop
    ∧ process_txchannel_prop cfg.waveform_prop (channels.getD defaultChannels) =
        .ok cfg.txchannel_prop
    ∧ cfg.rf_prop = { tx_power := tx_power, pn_f := pn_f, pn_power := pn_power } := by
  unfold Transmitter.init at h
  cases hrf : validate_rf_prop { tx_power := tx_power, pn_f := pn_f, pn_power := pn_power } with
  | error e => rw [hrf] at h; simp at h
  | ok u =>
  cases u
  rw [hrf, ok_bind] at h
  cases hw : buildWaveform f t pulses f_offset prp with
  | error e => rw [hw] at h; simp at h
  | ok wf =>
  rw [hw, ok_bind] at h
  cases hc : process_txchannel_prop wf (channels.getD defaultChannels) with
  | error e => rw [hc] at h; simp at h
  | ok txp =>
  rw [hc, ok_bind] at h
  simp only [Except.ok.injEq] at h
  subst h
  exact ⟨rfl, rfl, hc, rfl⟩

/-- Composition form of a successful construction. -/
theorem init_ok_of {f t : PyVal} {tx_power : ℚ} {pulses : ℕ}
    {prp f_offset : Option PyVal} {pn_f pn_power : Option (List ℚ)}
    {channels : Option (List TxChannel)} {wf : WaveformProp} {txp : TxChannelProp}
    (hrf : validate_rf_prop { tx_power := tx_power, pn_f := pn_f, pn_power := pn_power } = .ok ())
    (hw : buildWaveform f t pulses f_offset prp = .ok wf)
    (hc : process_txchannel_prop wf (channels.getD defaultChannels) = .ok txp) :
    Transmitter.init f t tx_power pulses prp f_offset pn_f pn_power channels = .ok
      { rf_prop := { tx_power := tx_power, pn_f := pn_f, pn_power := pn_power },
        waveform_prop := wf, txchannel_prop := txp } := by
  unfold Transmitter.init
  rw [hrf, ok_bind, hw, ok_bind, hc, ok_bind]

theorem expj_spec (p : ℚ) :
    expj p = Complex.exp (Complex.I * (p : ℂ) * (Real.pi : ℂ) / 180) := by
  unfold expj
  congr 1
  ring

theorem zipWith_expj_spec (as ps : List ℚ) :
    List.zipWith (fun (a p : ℚ) => (a : ℂ) * expj p) as ps =
      List.zipWith
        (fun (a p : ℚ) => (a : ℂ) * Complex.exp (Complex.I * (p : ℂ) * (Real.pi : ℂ) / 180))
        as ps := by
  have h : (fun (a p : ℚ) => (a : ℂ) * expj p) =
      fun (a p : ℚ) => (a : ℂ) * Complex.exp (Complex.I * (p : ℂ) * (Real.pi : ℂ) / 180) := by
    funext a p
    rw [expj_spec]
  rw [h]

theorem zipWith_get?_eq {α β γ : Type} {g : α → β → γ} {xs : List α} {ys : List β}
    {i : ℕ} {a : α} {b : β} (hx : xs.get? i = some a) (hy : ys.get? i = some b) :
    (List.zipWith g xs ys).get? i = some (g a b) := by
  induction xs generalizing ys i with
  | nil => simp at hx
  | cons x xs ih =>
    cases ys with
    | nil => simp at hy
    | cons y ys =>
      cases i with
      | zero =>
        simp only [List.get?_cons_zero, Option.some.injEq] at hx hy
        subst hx; subst hy; rfl
      | succ j =>
        simp only [List.get?_cons_succ] at hx hy
        simpa using ih hx hy

/-- C6: a channel descriptor supplying `phs` without `amp` gets the
all-ones amplitude of matching length, and one supplying `amp` without
`phs` gets the all-zeros phase of matching length; in both cases, given a
time axis of matching length, the result is the enabled record whose
modulation vector is elementwise `amp[i] * exp(1j*phs[i]*pi/180)`. -/
theorem C6_waveform_modulation_defaulting (mod_t phs amp : List ℚ)
    (h1 : mod_t.length = phs.length) (h2 : mod_t.length = amp.length) :
    process_waveform_modulation (some (.arr mod_t)) none (some (.arr phs)) =
      .ok { enabled := true,
            var := some (List.zipWith
              (fun (a p : ℚ) => (a : ℂ) *
                Complex.exp (Complex.I * (p : ℂ) * (Real.pi : ℂ) / 180))
              (List.replicate phs.length 1) phs),
            t := some mod_t }
    ∧ process_waveform_modulation (some (.arr mod_t)) (some (.arr amp)) none =
      .ok { enabled := true,
            var := some (List.zipWith
              (fun (a p : ℚ) => (a : ℂ) *
                Complex.exp (Complex.I * (p : ℂ) * (Real.pi : ℂ) / 180))
              amp (List.replicate amp.length 0)),
            t := some mod_t } := by
  constructor
  · rw [← zipWith_expj_spec]
    simp only [process_waveform_modulation, defaultAmp, defaultPhs, onesLike,
      MVal.ofPy, seqOfMVal, ok_bind, checkE, modTNorm, List.length_replicate,
      List.length_zipWith, ne_eq]
    rw [if_neg (by simp), if_neg (by simp [h1, min_self])]
    rfl
  · rw [← zipWith_expj_spec]
    simp only [process_waveform_modulation, defaultAmp, defaultPhs, zerosLike,
      MVal.ofPy, seqOfMVal, ok_bind, checkE, modTNorm, List.length_replicate,
      List.length_zipWith, ne_eq]
    rw [if_neg (by simp), if_neg (by simp [h2, min_self])]
    rfl

/-- Witness for C6 at `mod_t = [0, 1]`, `phs = [90, 180]`, `amp = [2, 3]`. -/
theorem C6_waveform_modulation_defaulting_witness :
    ([(0 : ℚ), 1].length = [(90 : ℚ), 180].length
      ∧ [(0 : ℚ), 1].length = [(2 : ℚ), 3].length)
    ∧ (process_waveform_modulation (some (.arr [0, 1])) none (some (.arr [90, 180])) =
        .ok { enabled := true,
              var := some (List.zipWith
                (fun (a p : ℚ) => (a : ℂ) *
                  Complex.exp (Complex.I * (p : ℂ) * (Real.pi : ℂ) / 180))
                (List.replicate ([(90 : ℚ), 180].length) 1) [90, 180]),
              t := some [0, 1] }
      ∧ process_waveform_modulation (some (.arr [0, 1])) (some (.arr [2, 3])) none =
        .ok { enabled := true,
              var := some (List.zipWith
                (fun (a p : ℚ) => (a : ℂ) *
                  Complex.exp (Complex.I * (p : ℂ) * (Real.pi : ℂ) / 180))
                [2, 3] (List.replicate ([(2 : ℚ), 3].length) 0)),
              t := some [0, 1] }) :=
  ⟨⟨rfl, rfl⟩, C6_waveform_modulation_defaulting [0, 1] [90, 180] [2, 3] rfl rfl⟩

/-- C7: if `mod_t` is absent, or both `amp` and `phs` are absent (so the
amp/phs defaulting leaves them absent), waveform-modulation processing
returns the disabled record and raises no error. -/
theorem C7_partial_modulation_disabled (mod_t amp phs : Option PyVal)
    (h : mod_t = none ∨ (amp = none ∧ phs = none)) :
    process_waveform_modulation mod_t amp phs =
      .ok { enabled := false, var := none, t := none } := by
  rcases h with h | ⟨ha, hp⟩
  · subst h
    cases amp <;> cases phs <;> rfl
  · subst ha; subst hp
    cases mod_t <;> rfl

/-- Witness for C7 at `mod_t = [0, 1]` with `amp` and `phs` absent. -/
theorem C7_partial_modulation_disabled_witness :
    ((some (PyVal.arr [0, 1]) : Option PyVal) = none
      ∨ ((none : Option PyVal) = none ∧ (none : Option PyVal) = none))
    ∧ process_waveform_modulation (some (.arr [0, 1])) none none =
        .ok { enabled := false, var := none, t := none } :=
  ⟨Or.inr ⟨rfl, rfl⟩,
    C7_partial_modulation_disabled (some (.arr [0, 1])) none none (Or.inr ⟨rfl, rfl⟩)⟩

/-- C8: pulse-modulation processing raises a `ValueError` naming
`pulse_amp` when its length differs from the pulse count, a `ValueError`
naming `pulse_phs` when its length differs, and otherwise returns the
elementwise sequence `pulse_amp[i] * exp(1j*pulse_phs[i]*pi/180)` of
length `pulses`. -/
theorem C8_pulse_modulation (pulses : ℕ) (pulse_amp pulse_phs : List ℚ) :
    (pulse_amp.length ≠ pulses →
      process_pulse_modulation pulses pulse_amp pulse_phs =
        .error (.valueError "Lengths of `pulse_amp` and `pulses` should be the same"))
    ∧ (pulse_amp.length = pulses → pulse_phs.length ≠ pulses →
      process_pulse_modulation pulses pulse_amp pulse_phs =
        .error (.valueError "Length of `pulse_phs` and `pulses` should be the same"))
    ∧ (pulse_amp.length = pulses → pulse_phs.length = pulses →
      ∃ l, process_pulse_modulation pulses pulse_amp pulse_phs = .ok l
        ∧ l.length = pulses
        ∧ ∀ i a p, pulse_amp.get? i = some a → pulse_phs.get? i = some p →
            l.get? i = some ((a : ℂ) *
              Complex.exp (Complex.I * (p : ℂ) * (Real.pi : ℂ) / 180))) := by
  refine ⟨fun ha => ?_, fun ha hp => ?_, fun ha hp => ?_⟩
  · simp [process_pulse_modulation, ha]
  · simp [process_pulse_modulation, ha, hp]
  · refine ⟨List.zipWith (fun (a p : ℚ) => (a : ℂ) * expj p) pulse_amp pulse_phs, ?_, ?_, ?_⟩
    · simp [process_pulse_modulation, ha, hp]
    · simp [List.length_zipWith, ha, hp]
    · intro i a p hia hip
      rw [zipWith_get?_eq hia hip, expj_spec]

/-- Witness for C8 at `pulses = 2`, `pulse_amp = [2, 3]`,
`pulse_phs = [0, 90]` (lengths matching) and at a mismatched length. -/
theorem C8_pulse_modulation_witness :
    (([(2 : ℚ), 3].length = 2) ∧ ([(0 : ℚ), 90].length = 2))
    ∧ (∃ l, process_pulse_modulation 2 [2, 3] [0, 90] = .ok l
        ∧ l.length = 2
        ∧ ∀ i a p, ([(2 : ℚ), 3]).get? i = some a → ([(0 : ℚ), 90]).get? i = some p →
            l.get? i = some ((a : ℂ) *
              Complex.exp (Complex.I * (p : ℂ) * (Real.pi : ℂ) / 180)))
    ∧ process_pulse_modulation 2 [2] [0, 90] =
        .error (.valueError "Lengths of `pulse_amp` and `pulses` should be the same") :=
  ⟨⟨rfl, rfl⟩,
    (C8_pulse_modulation 2 [2, 3] [0, 90]).2.2 rfl rfl,
    (C8_pulse_modulation 2 [2] [0, 90]).1 (by decide)⟩

/-- Channel record produced for an explicitly empty channel list. -/
noncomputable def emptyChannelProp : TxChannelProp :=
  { size := 0, delay := [], grid := [], locations := [], polarization := [],
    waveform_mod := [], pulse_mod := [], az_angles := [], az_patterns := [],
    el_angles := [], el_patterns := [], antenna_gains := [] }

theorem validate_rf_prop_ne_ok {rf : RfProp}
    (h : validate_rf_prop rf ≠ .ok ()) :
    validate_rf_prop rf =
      .error (.valueError "Lengths of `pn_f` and `pn_power` should be the same") := by
  obtain ⟨tp, pf, pp⟩ := rf
  cases pf with
  | none =>
    cases pp with
    | none => exact absurd rfl h
    | some b => rfl
  | some a =>
    cases pp with
    | none => rfl
    | some b =>
      by_cases hl : a.length = b.length
      · exact absurd (by simp [validate_rf_prop, hl]) h
      · simp [validate_rf_prop, hl]

/-- C4: RF-property validation succeeds exactly when the phase-noise
frequency and power sequences are both absent, or both present with equal
length; on any other combination construction fails with the `ValueError`
naming the pair, and on success both values are passed through unchanged
into the `rf_prop` record. -/
theorem C4_rf_validation (tx_power : ℚ) (pn_f pn_power : Option (List ℚ))
    (f t : PyVal) (pulses : ℕ) (prp f_offset : Option PyVal)
    (channels : Option (List TxChannel)) :
    (validate_rf_prop { tx_power := tx_power, pn_f := pn_f, pn_power := pn_power } = .ok () ↔
      ((pn_f = none ∧ pn_power = none)
        ∨ ∃ a b, pn_f = some a ∧ pn_power = some b ∧ a.length = b.length))
    ∧ (validate_rf_prop { tx_power := tx_power, pn_f := pn_f, pn_power := pn_power } ≠ .ok () →
      Transmitter.init f t tx_power pulses prp f_offset pn_f pn_power channels =
        .error (.valueError "Lengths of `pn_f` and `pn_power` should be the same"))
    ∧ (∀ cfg,
        Transmitter.init f t tx_power pulses prp f_offset pn_f pn_power channels = .ok cfg →
        cfg.rf_prop.pn_f = pn_f ∧ cfg.rf_prop.pn_power = pn_power
          ∧ cfg.rf_prop.tx_power = tx_power) := by
  refine ⟨?_, fun hne => ?_, fun cfg hcfg => ?_⟩
  · cases pn_f with
    | none =>
      cases pn_power with
      | none => simp [validate_rf_prop]
      | some b => simp [validate_rf_prop]
    | some a =>
      cases pn_power with
      | none => simp [validate_rf_prop]
      | some b =>
        by_cases hl : a.length = b.length
        · simp [validate_rf_prop, hl]
        · simp [validate_rf_prop, hl]
  · unfold Transmitter.init
    rw [validate_rf_prop_ne_ok hne, error_bind]
  · obtain ⟨-, -, -, hrf⟩ := init_eq_ok hcfg
    rw [hrf]
    exact ⟨rfl, rfl, rfl⟩

/-- Concrete configuration used to witness C4's pass-through clause. -/
noncomputable def c4cfg : Transmitter :=
  { rf_prop := { tx_power := 0, pn_f := some [5], pn_power := some [7] },
    waveform_prop :=
      { f := [0, 0], t := [0, 1], bandwidth := 0, pulse_length := 1, pulses := 1,
        f_offset := [0], prp := [1], pulse_start_time := [0] },
    txchannel_prop := emptyChannelProp }

/-- Witness for C4: `pn_f=[1,2,3]` with `pn_power=None` makes construction
fail; equal-length `pn_f`/`pn_power` are passed through unchanged. -/
theorem C4_rf_validation_witness :
    (validate_rf_prop { tx_power := 0, pn_f := some [1, 2, 3], pn_power := none } ≠ .ok ())
    ∧ Transmitter.init (.scalar 0) (.scalar 1) 0 1 none none (some [1, 2, 3]) none none =
        .error (.valueError "Lengths of `pn_f` and `pn_power` should be the same")
    ∧ (c4cfg.rf_prop.pn_f = some [5] ∧ c4cfg.rf_prop.pn_power = some [7]
        ∧ c4cfg.rf_prop.tx_power = 0) :=
  ⟨by decide,
    (C4_rf_validation 0 (some [1, 2, 3]) none (.scalar 0) (.scalar 1) 1 none none
      none).2.1 (by decide),
    (C4_rf_validation 0 (some [5]) (some [7]) (.scalar 0) (.scalar 1) 1 none none
      (some [])).2.2 c4cfg rfl⟩

/-- C3: constructing with `prp = None` gives a `prp` array with every one
of its `pulses` entries equal to `pulse_length`, and pulse start times
`pulse_start_time[i] = i * pulse_length`. -/
theorem C3_default_prp (f t : PyVal) (tx_power : ℚ) (pulses : ℕ)
    (f_offset : Option PyVal) (pn_f pn_power : Option (List ℚ))
    (channels : Option (List TxChannel)) (cfg : Transmitter)
    (h : Transmitter.init f t tx_power pulses none f_offset pn_f pn_power channels = .ok cfg) :
    cfg.waveform_prop.prp = List.replicate pulses cfg.waveform_prop.pulse_length
    ∧ ∀ i, i < pulses →
      cfg.waveform_prop.pulse_start_time.get? i =
        some ((i : ℚ) * cfg.waveform_prop.pulse_length) := by
  obtain ⟨-, hw, -, -⟩ := init_eq_ok h
  obtain ⟨tArr, pl, p0, hT, hL, hf, ht, hpulses, hpl, hfo, hprp, hhead, hpst, hV⟩ :=
    buildWaveform_eq_ok hw
  simp only [broadcastOpt] at hprp
  have hp0 : p0 = pl := by
    rw [hprp] at hhead
    cases pulses with
    | zero => simp [List.replicate] at hhead
    | succ n =>
      simp only [List.replicate, List.head?_cons, Option.some.injEq] at hhead
      exact hhead.symm
  constructor
  · rw [hprp, hpl]
  · intro i hi
    rw [hpst, hprp, hpl, List.get?_map, cumsum,
      cumsumFrom_get? _ 0 i (by simpa using hi)]
    simp only [Option.map_some']
    rw [List.take_replicate, List.sum_replicate]
    have hmin : min (i + 1) pulses = i + 1 := by omega
    rw [hmin, hp0]
    congr 1
    push_cast [nsmul_eq_mul]
    ring

/-- Concrete configuration used to witness C3 (empty channel list). -/
noncomputable def c3cfg : Transmitter :=
  { rf_prop := { tx_power := 0, pn_f := none, pn_power := none },
    waveform_prop :=
      { f := [0, 0], t := [0, 1], bandwidth := 0, pulse_length := 1, pulses := 2,
        f_offset := [0, 0], prp := [1, 1], pulse_start_time := [0, 1] },
    txchannel_prop := emptyChannelProp }

/-- Witness for C3 at `pulses = 2`, `prp = None`. -/
theorem C3_default_prp_witness :
    Transmitter.init (.scalar 0) (.scalar 1) 0 2 none none none none (some []) = .ok c3cfg
    ∧ c3cfg.waveform_prop.prp = List.replicate 2 c3cfg.waveform_prop.pulse_length
    ∧ c3cfg.waveform_prop.pulse_start_time.get? 1 =
        some ((1 : ℚ) * c3cfg.waveform_prop.pulse_length) :=
  ⟨rfl,
    (C3_default_prp (.scalar 0) (.scalar 1) 0 2 none none none (some []) c3cfg rfl).1,
    by
      have h2 := (C3_default_prp (.scalar 0) (.scalar 1) 0 2 none none none (some [])
        c3cfg rfl).2 1 (by omega)
      simpa using h2⟩

/-- Concrete configuration with non-uniform `prp = [1, 2]` (pulse length 1),
used for C1. -/
noncomputable def c1cfg : Transmitter :=
  { rf_prop := { tx_power := 0, pn_f := none, pn_power := none },
    waveform_prop :=
      { f := [0, 0], t := [0, 1], bandwidth := 0, pulse_length := 1, pulses := 2,
        f_offset := [0, 0], prp := [1, 2], pulse_start_time := [0, 2] },
    txchannel_prop := emptyChannelProp }

/-- Counterexample to C1: with `prp = [1, 2]` the construction succeeds and
yields `pulse_start_time = [0, 2]`, so pulse 1 does not start at the sum of
the PRPs before it (`prp[0] = 1`), and the first pulse starts at time 0
even though `prp` is not uniform. -/
theorem C1_counterexample :
    Transmitter.init (.scalar 0) (.scalar 1) 0 2 (some (.arr [1, 2])) none none none
        (some []) = .ok c1cfg
    ∧ c1cfg.waveform_prop.prp = [1, 2]
    ∧ c1cfg.waveform_prop.pulse_start_time.get? 1 ≠
        some ((c1cfg.waveform_prop.prp.take 1).sum)
    ∧ c1cfg.waveform_prop.pulse_start_time.get? 0 = some 0
    ∧ c1cfg.waveform_prop.prp.get? 0 ≠ c1cfg.waveform_prop.prp.get? 1 :=
  ⟨rfl, rfl, by decide, by decide, by decide⟩

/-- C1 amended: for every successful construction, pulse `i` starts at the
sum of `prp[1..i]` (that is, `cumsum(prp) - prp[0]`), and the first pulse
starts at time 0 for every `prp`, uniform or not.  (It starts at the sum
of the PRPs before it only in the uniform case.) -/
theorem C1_amended_pulse_start_time (f t : PyVal) (tx_power : ℚ) (pulses : ℕ)
    (prp f_offset : Option PyVal) (pn_f pn_power : Option (List ℚ))
    (channels : Option (List TxChannel)) (cfg : Transmitter)
    (h : Transmitter.init f t tx_power pulses prp f_offset pn_f pn_power channels = .ok cfg) :
    (∀ i, i < cfg.waveform_prop.pulse_start_time.length →
      cfg.waveform_prop.pulse_start_time.get? i =
        some (((cfg.waveform_prop.prp.drop 1).take i).sum))
    ∧ cfg.waveform_prop.pulse_start_time.get? 0 = some 0 := by
  obtain ⟨-, hw, -, -⟩ := init_eq_ok h
  obtain ⟨tArr, pl, p0, hT, hL, hf, ht, hpulses, hpl, hfo, hprp, hhead, hpst, hV⟩ :=
    buildWaveform_eq_ok hw
  obtain ⟨rest, hrest⟩ : ∃ rest, cfg.waveform_prop.prp = p0 :: rest := by
    cases hpc : cfg.waveform_prop.prp with
    | nil => rw [hpc] at hhead; simp at hhead
    | cons a as =>
      rw [hpc] at hhead
      simp only [List.head?_cons, Option.some.injEq] at hhead
      exact ⟨as, by rw [hhead]⟩
  have main : ∀ i, i < cfg.waveform_prop.pulse_start_time.length →
      cfg.waveform_prop.pulse_start_time.get? i =
        some (((cfg.waveform_prop.prp.drop 1).take i).sum) := by
    intro i hi
    rw [hpst, hrest] at hi ⊢
    rw [List.length_map, cumsum_length] at hi
    rw [List.get?_map, cumsum, cumsumFrom_get? _ 0 i hi]
    simp only [Option.map_some', List.take_succ_cons, List.sum_cons,
      List.drop_succ_cons, List.drop_zero]
    congr 1
    ring
  refine ⟨main, ?_⟩
  have hpos : 0 < cfg.waveform_prop.pulse_start_time.length := by
    rw [hpst, hrest, List.length_map, cumsum_length]
    simp
  have h0 := main 0 hpos
  simpa using h0

/-- Witness for the amended C1 at the non-uniform input `prp = [1, 2]`. -/
theorem C1_amended_pulse_start_time_witness :
    Transmitter.init (.scalar 0) (.scalar 1) 0 2 (some (.arr [1, 2])) none none none
        (some []) = .ok c1cfg
    ∧ c1cfg.waveform_prop.pulse_start_time.get? 1 =
        some (((c1cfg.waveform_prop.prp.drop 1).take 1).sum)
    ∧ c1cfg.waveform_prop.pulse_start_time.get? 0 = some 0 :=
  ⟨rfl,
    (C1_amended_pulse_start_time (.scalar 0) (.scalar 1) 0 2 (some (.arr [1, 2])) none
      none none (some []) c1cfg rfl).1 1 (by decide),
    (C1_amended_pulse_start_time (.scalar 0) (.scalar 1) 0 2 (some (.arr [1, 2])) none
      none none (some []) c1cfg rfl).2⟩

theorem getLast?_of_ne_nil {xs : List ℚ} (h : xs ≠ []) :
    xs.getLast? = some (xs.getLastD 0) := by
  cases hx : xs.getLast? with
  | none => exact absurd (List.getLast?_eq_none_iff.mp hx) h
  | some x => rw [List.getLastD_eq_getLast?, hx]; rfl

theorem head?_of_ne_nil {xs : List ℚ} (h : xs ≠ []) :
    xs.head? = some (xs.headI) := by
  cases xs with
  | nil => exact absurd rfl h
  | cons a as => rfl

/-- Characterization of `validate_waveform_prop` on a record with nonempty
`prp`: it succeeds exactly when none of the four invariants is violated,
and every failure is a `ValueError`. -/
theorem checkE_pos {b : Prop} [Decidable b] (h : b) (e : TxError) :
    checkE b e = .error e := if_pos h

theorem checkE_neg {b : Prop} [Decidable b] (h : ¬b) (e : TxError) :
    checkE b e = .ok () := if_neg h

theorem validate_waveform_characterization (wf : WaveformProp) (hne : wf.prp ≠ []) :
    (validate_waveform_prop wf = .ok () ↔
      ¬(wf.f.length ≠ wf.t.length ∨ wf.f_offset.length ≠ wf.pulses
        ∨ wf.prp.length ≠ wf.pulses ∨ listMinD wf.prp 0 < wf.pulse_length))
    ∧ (validate_waveform_prop wf ≠ .ok () →
      ∃ msg, validate_waveform_prop wf = .error (.valueError msg)) := by
  unfold validate_waveform_prop
  rw [npMin_of_ne_nil hne]
  by_cases c1 : wf.f.length = wf.t.length
  case neg =>
    rw [checkE_pos (by simpa using c1), error_bind]
    exact ⟨by simp [c1], fun hne2 => ⟨_, rfl⟩⟩
  rw [checkE_neg (by simpa using c1), ok_bind]
  by_cases c2 : wf.f_offset.length = wf.pulses
  case neg =>
    rw [checkE_pos (by simpa using c2), error_bind]
    exact ⟨by simp [c1, c2], fun hne2 => ⟨_, rfl⟩⟩
  rw [checkE_neg (by simpa using c2), ok_bind]
  by_cases c3 : wf.prp.length = wf.pulses
  case neg =>
    rw [checkE_pos (by simpa using c3), error_bind]
    exact ⟨by simp [c1, c2, c3], fun hne2 => ⟨_, rfl⟩⟩
  rw [checkE_neg (by simpa using c3), ok_bind, ok_bind]
  by_cases c4 : listMinD wf.prp 0 < wf.pulse_length
  case pos =>
    rw [checkE_pos c4]
    exact ⟨by simp [c1, c2, c3, c4], fun hne2 => ⟨_, rfl⟩⟩
  rw [checkE_neg c4]
  exact ⟨by simp [c1, c2, c3, c4], fun hne2 => absurd rfl hne2⟩

/-- Result of the channel loop on the implicit default channel. -/
noncomputable def defaultChannelResult (wf : WaveformProp) : ChannelResult :=
  { delay := 0, grid := 1, location := [0, 0, 0], polarization := [0, 0, 1],
    waveform_mod := { enabled := false, var := none, t := none },
    pulse_mod := List.zipWith (fun (a p : ℚ) => (a : ℂ) * expj p)
      (List.replicate wf.pulses 1) (List.replicate wf.pulses 0),
    az_angle := [-90, 90], az_pattern := ([0, 0] : List ℚ).map (fun x => x - 0),
    el_angle := [-90, 90], el_pattern := ([0, 0] : List ℚ).map (fun x => x - 0),
    antenna_gain := 0 }

/-- Batched channel record for the implicit default channel list. -/
noncomputable def defaultTxp (wf : WaveformProp) : TxChannelProp :=
  { size := 1, delay := [0], grid := [1], locations := [[0, 0, 0]],
    polarization := [[0, 0, 1]],
    waveform_mod := [{ enabled := false, var := none, t := none }],
    pulse_mod := [List.zipWith (fun (a p : ℚ) => (a : ℂ) * expj p)
      (List.replicate wf.pulses 1) (List.replicate wf.pulses 0)],
    az_angles := [[-90, 90]], az_patterns := [([0, 0] : List ℚ).map (fun x => x - 0)],
    el_angles := [[-90, 90]], el_patterns := [([0, 0] : List ℚ).map (fun x => x - 0)],
    antenna_gains := [0] }

/-- One run of the channel loop on the implicit default channel always
succeeds (defaults are mutually consistent for any pulse count). -/
theorem process_default_channels_ok (wf : WaveformProp) :
    process_txchannel_prop wf defaultChannels = .ok (defaultTxp wf) := by
  have hch : processChannel wf { location := [0, 0, 0] } =
      .ok (defaultChannelResult wf) := by
    unfold processChannel defaultChannelResult
    rw [show checkE ((([0, 0, 0] : List ℚ)).length ≠ 3)
      (.valueError "could not broadcast input array") = .ok () from rfl, ok_bind]
    rw [show checkE (((Option.getD (none : Option (List (ℚ × ℚ)))
        [(0, 0), (0, 0), (1, 0)])).length ≠ 3)
      (.valueError "could not broadcast input array") = .ok () from rfl, ok_bind]
    rw [show process_waveform_modulation none none none =
      .ok { enabled := false, var := none, t := none } from rfl, ok_bind]
    rw [show process_pulse_modulation wf.pulses
        (Option.getD none (List.replicate wf.pulses 1))
        (Option.getD none (List.replicate wf.pulses 0)) =
      .ok (List.zipWith (fun (a p : ℚ) => (a : ℂ) * expj p)
        (List.replicate wf.pulses 1) (List.replicate wf.pulses 0)) from by
      simp [process_pulse_modulation, List.length_replicate], ok_bind]
    rfl
  have hmap : mapChannels (processChannel wf) [{ location := [0, 0, 0] }] =
      .ok [defaultChannelResult wf] := by
    unfold mapChannels
    rw [hch, ok_bind]
    rfl
  unfold process_txchannel_prop defaultChannels
  rw [hmap, ok_bind]
  rfl
/-- The waveform record the normalization stage produces on inputs whose
arrays are nonempty, written with total helpers. -/
def wfRecord (f t : PyVal) (pulses : ℕ) (f_offset prp : Option PyVal) : WaveformProp :=
  { f := normalizeF f, t := tNorm t,
    bandwidth := listMaxD (normalizeF f) 0 - listMinD (normalizeF f) 0,
    pulse_length := (tNorm t).getLastD 0, pulses := pulses,
    f_offset := broadcastOpt f_offset 0 pulses,
    prp := broadcastOpt prp ((tNorm t).getLastD 0) pulses,
    pulse_start_time :=
      (cumsum (broadcastOpt prp ((tNorm t).getLastD 0) pulses)).map
        (fun x => x - (broadcastOpt prp ((tNorm t).getLastD 0) pulses).headI) }

/-- On nonempty inputs the waveform stage reduces to validation of
`wfRecord` followed by returning it. -/
theorem buildWaveform_reduced {f t : PyVal} {pulses : ℕ} {f_offset prp : Option PyVal}
    (hp : 1 ≤ pulses) (hf : f.nonempty = true) (ht : t.nonempty = true)
    (hprp : optNonempty prp = true) :
    buildWaveform f t pulses f_offset prp =
      validate_waveform_prop (wfRecord f t pulses f_offset prp) >>= fun _ =>
        Except.ok (wfRecord f t pulses f_offset prp) := by
  obtain ⟨hT, hTne⟩ := normalizeT_ok ht
  have hfne := normalizeF_ne_nil hf
  have hbne : broadcastOpt prp ((tNorm t).getLastD 0) pulses ≠ [] :=
    broadcastOpt_ne_nil hprp hp
  unfold buildWaveform wfRecord
  rw [hT, ok_bind, npMax_of_ne_nil hfne, ok_bind, npMin_of_ne_nil hfne, ok_bind,
    getLastE_ok_iff.mpr (getLast?_of_ne_nil hTne), ok_bind,
    headE_ok_iff.mpr (head?_of_ne_nil hbne), ok_bind]

/-- C2: with the RF and channel argument groups at their defaults, and
nonempty `f`/`t`/`prp` arrays with `pulses ≥ 1`, construction succeeds
exactly when none of the four waveform invariants is violated, and any
violation produces a `ValueError` (the spec's `ConfigError`). -/
theorem C2_error_iff_invariant (f t : PyVal) (tx_power : ℚ) (pulses : ℕ)
    (prp f_offset : Option PyVal)
    (hp : 1 ≤ pulses) (hf : f.nonempty = true) (ht : t.nonempty = true)
    (hprp : optNonempty prp = true) :
    ((∃ cfg, Transmitter.init f t tx_power pulses prp f_offset none none none = .ok cfg)
      ↔ ¬ waveformViolation f t pulses f_offset prp)
    ∧ (waveformViolation f t pulses f_offset prp →
      ∃ msg, Transmitter.init f t tx_power pulses prp f_offset none none none =
        .error (.valueError msg)) := by
  have hbne : (wfRecord f t pulses f_offset prp).prp ≠ [] :=
    broadcastOpt_ne_nil hprp hp
  have hbw := @buildWaveform_reduced f t pulses f_offset prp hp hf ht hprp
  have hchar := validate_waveform_characterization (wfRecord f t pulses f_offset prp) hbne
  have hviol : ((wfRecord f t pulses f_offset prp).f.length ≠
        (wfRecord f t pulses f_offset prp).t.length
      ∨ (wfRecord f t pulses f_offset prp).f_offset.length ≠
        (wfRecord f t pulses f_offset prp).pulses
      ∨ (wfRecord f t pulses f_offset prp).prp.length ≠
        (wfRecord f t pulses f_offset prp).pulses
      ∨ listMinD (wfRecord f t pulses f_offset prp).prp 0 <
        (wfRecord f t pulses f_offset prp).pulse_length)
      ↔ waveformViolation f t pulses f_offset prp := Iff.rfl
  constructor
  · constructor
    · rintro ⟨cfg, hcfg⟩
      obtain ⟨-, hw, -, -⟩ := init_eq_ok hcfg
      rw [hbw] at hw
      cases hV : validate_waveform_prop (wfRecord f t pulses f_offset prp) with
      | error e => rw [hV, error_bind] at hw; simp at hw
      | ok u =>
        cases u
        exact fun hv => (hchar.1.mp hV) (hviol.mpr hv)
    · intro hnv
      have hV : validate_waveform_prop (wfRecord f t pulses f_offset prp) = .ok () :=
        hchar.1.mpr (fun hd => hnv (hviol.mp hd))
      have hwok : buildWaveform f t pulses f_offset prp =
          .ok (wfRecord f t pulses f_offset prp) := by
        rw [hbw, hV, ok_bind]
      exact ⟨_, init_ok_of rfl hwok
        (process_default_channels_ok (wfRecord f t pulses f_offset prp))⟩
  · intro hv
    have hV' : validate_waveform_prop (wfRecord f t pulses f_offset prp) ≠ .ok () :=
      fun hOK => (hchar.1.mp hOK) (hviol.mpr hv)
    obtain ⟨msg, hmsg⟩ := hchar.2 hV'
    refine ⟨msg, init_error_of_buildWaveform rfl ?_⟩
    rw [hbw, hmsg, error_bind]

/-- Witness for C2: `prp = 0.5e-6` with `pulse_length = 1e-6` violates the
`min(prp) ≥ pulse_length` invariant and construction raises the
`ValueError`; `prp` exactly equal to `pulse_length` is accepted. -/
theorem C2_error_iff_invariant_witness :
    (1 ≤ 1 ∧ PyVal.nonempty (.scalar 0) = true ∧ PyVal.nonempty (.scalar (1/1000000)) = true
      ∧ optNonempty (some (.scalar (1/2000000))) = true)
    ∧ waveformViolation (.scalar 0) (.scalar (1/1000000)) 1 none (some (.scalar (1/2000000)))
    ∧ (∃ msg, Transmitter.init (.scalar 0) (.scalar (1/1000000)) 0 1
        (some (.scalar (1/2000000))) none none none none = .error (.valueError msg))
    ∧ Transmitter.init (.scalar 0) (.scalar (1/1000000)) 0 1
        (some (.scalar (1/2000000))) none none none none =
      .error (.valueError "`prp` should be larger than `pulse_length`")
    ∧ (∃ cfg, Transmitter.init (.scalar 0) (.scalar (1/1000000)) 0 1
        (some (.scalar (1/1000000))) none none none none = .ok cfg) :=
  ⟨⟨le_refl 1, rfl, rfl, rfl⟩,
    by decide,
    (C2_error_iff_invariant (.scalar 0) (.scalar (1/1000000)) 0 1
      (some (.scalar (1/2000000))) none (le_refl 1) rfl rfl rfl).2 (by decide),
    rfl,
    (C2_error_iff_invariant (.scalar 0) (.scalar (1/1000000)) 0 1
      (some (.scalar (1/1000000))) none (le_refl 1) rfl rfl rfl).1.mpr (by decide)⟩

theorem mapChannels_ok {g : TxChannel → Except TxError ChannelResult} :
    ∀ {cs : List TxChannel} {rs : List ChannelResult}, mapChannels g cs = .ok rs →
      rs.length = cs.length
      ∧ ∀ i c, cs.get? i = some c → ∃ r, g c = .ok r ∧ rs.get? i = some r := by
  intro cs
  induction cs with
  | nil =>
    intro rs h
    unfold mapChannels at h
    simp only [Except.ok.injEq] at h
    subst h
    exact ⟨rfl, fun i c hc => by simp at hc⟩
  | cons c cs ih =>
    intro rs h
    unfold mapChannels at h
    cases hg : g c with
    | error e => rw [hg, error_bind] at h; simp at h
    | ok r =>
      rw [hg, ok_bind] at h
      cases hm : mapChannels g cs with
      | error e => rw [hm, error_bind] at h; simp at h
      | ok rs' =>
        rw [hm, ok_bind] at h
        simp only [Except.ok.injEq] at h
        subst h
        obtain ⟨hlen, hpt⟩ := ih hm
        refine ⟨by simp [hlen], fun i cc hc => ?_⟩
        cases i with
        | zero =>
          simp only [List.get?_cons_zero, Option.some.injEq] at hc
          subst hc
          exact ⟨r, hg, rfl⟩
        | succ j =>
          simp only [List.get?_cons_succ] at hc ⊢
          exact hpt j cc hc

theorem npMax_eq_ok {xs : List ℚ} {m : ℚ} (h : npMax xs = .ok m) :
    xs ≠ [] ∧ m = listMaxD xs 0 := by
  cases xs with
  | nil => simp [npMax] at h
  | cons a as =>
    simp only [npMax, Except.ok.injEq] at h
    exact ⟨by simp, h.symm⟩

/-- Field decomposition of one successful channel-loop iteration. -/
theorem processChannel_eq_ok {wf : WaveformProp} {ch : TxChannel} {r : ChannelResult}
    (h : processChannel wf ch = .ok r) :
    r.antenna_gain = listMaxD (ch.azimuth_pattern.getD [0, 0]) 0
    ∧ r.az_pattern = (ch.azimuth_pattern.getD [0, 0]).map
        (fun x => x - listMaxD (ch.azimuth_pattern.getD [0, 0]) 0)
    ∧ r.el_pattern = (ch.elevation_pattern.getD [0, 0]).map
        (fun x => x - listMaxD (ch.elevation_pattern.getD [0, 0]) 0)
    ∧ ch.azimuth_pattern.getD [0, 0] ≠ []
    ∧ ch.elevation_pattern.getD [0, 0] ≠ []
    ∧ r.polarization = (ch.polarization.getD [(0, 0), (0, 0), (1, 0)]).map Prod.fst
    ∧ r.location = ch.location
    ∧ r.delay = ch.delay.getD 0
    ∧ r.grid = ch.grid.getD 1 := by
  unfold processChannel at h
  cases h1 : checkE (ch.location.length ≠ 3)
      (.valueError "could not broadcast input array") with
  | error e => rw [h1, error_bind] at h; simp at h
  | ok u =>
  cases u
  rw [h1, ok_bind] at h
  cases h2 : checkE ((ch.polarization.getD [(0, 0), (0, 0), (1, 0)]).length ≠ 3)
      (.valueError "could not broadcast input array") with
  | error e => rw [h2, error_bind] at h; simp at h
  | ok u =>
  cases u
  rw [h2, ok_bind] at h
  cases h3 : process_waveform_modulation ch.mod_t ch.amp ch.phs with
  | error e => rw [h3, error_bind] at h; simp at h
  | ok wm =>
  rw [h3, ok_bind] at h
  cases h4 : process_pulse_modulation wf.pulses
      (ch.pulse_amp.getD (List.replicate wf.pulses 1))
      (ch.pulse_phs.getD (List.replicate wf.pulses 0)) with
  | error e => rw [h4, error_bind] at h; simp at h
  | ok pm =>
  rw [h4, ok_bind] at h
  cases h5 : checkE ((ch.azimuth_angle.getD [-90, 90]).length ≠
      (ch.azimuth_pattern.getD [0, 0]).length)
      (.valueError
        "Lengths of `azimuth_angle` and `azimuth_pattern` should be the same") with
  | error e => rw [h5, error_bind] at h; simp at h
  | ok u =>
  cases u
  rw [h5, ok_bind] at h
  cases h6 : npMax (ch.azimuth_pattern.getD [0, 0]) with
  | error e => rw [h6, error_bind] at h; simp at h
  | ok gain =>
  rw [h6, ok_bind] at h
  cases h7 : checkE ((ch.elevation_angle.getD [-90, 90]).length ≠
      (ch.elevation_pattern.getD [0, 0]).length)
      (.valueError
        "Lengths of `elevation_angle` and `elevation_pattern` should be the same") with
  | error e => rw [h7, error_bind] at h; simp at h
  | ok u =>
  cases u
  rw [h7, ok_bind] at h
  cases h8 : npMax (ch.elevation_pattern.getD [0, 0]) with
  | error e => rw [h8, error_bind] at h; simp at h
  | ok elMax =>
  rw [h8, ok_bind] at h
  simp only [Except.ok.injEq] at h
  subst h
  obtain ⟨haz, hgain⟩ := npMax_eq_ok h6
  obtain ⟨hel, helMax⟩ := npMax_eq_ok h8
  subst hgain
  subst helMax
  exact ⟨rfl, rfl, rfl, haz, hel, rfl, rfl, rfl, rfl⟩

/-- Decomposition of a successful channel-stage run into per-channel
results. -/
theorem process_txchannel_prop_eq_ok {wf : WaveformProp} {chs : List TxChannel}
    {txp : TxChannelProp} (h : process_txchannel_prop wf chs = .ok txp) :
    ∃ rs, mapChannels (processChannel wf) chs = .ok rs
      ∧ txp.size = chs.length
      ∧ txp.antenna_gains = rs.map ChannelResult.antenna_gain
      ∧ txp.az_patterns = rs.map ChannelResult.az_pattern
      ∧ txp.el_patterns = rs.map ChannelResult.el_pattern
      ∧ txp.polarization = rs.map ChannelResult.polarization
      ∧ txp.locations = rs.map ChannelResult.location := by
  unfold process_txchannel_prop at h
  cases hm : mapChannels (processChannel wf) chs with
  | error e => rw [hm, error_bind] at h; simp at h
  | ok rs =>
    rw [hm, ok_bind] at h
    simp only [Except.ok.injEq] at h
    subst h
    exact ⟨rs, rfl, rfl, rfl, rfl, rfl, rfl, rfl⟩

theorem foldl_max_map_sub (xs : List ℚ) (c : ℚ) :
    ∀ x, (xs.map (fun y => y - c)).foldl max (x - c) = xs.foldl max x - c := by
  induction xs with
  | nil => intro x; rfl
  | cons a as ih =>
    intro x
    simp only [List.map_cons, List.foldl_cons]
    rw [max_sub_sub_right, ih]

theorem npMax_map_sub_max {xs : List ℚ} (hne : xs ≠ []) :
    npMax (xs.map (fun x => x - listMaxD xs 0)) = .ok 0 := by
  cases xs with
  | nil => exact absurd rfl hne
  | cons a as =>
    simp only [List.map_cons, npMax, Except.ok.injEq]
    rw [foldl_max_map_sub as (listMaxD (a :: as) 0) a]
    simp [listMaxD]

/-- C5: for every channel of a successful channel-stage run, the stored
azimuth pattern has maximum exactly 0 and the channel's antenna peak gain
equals the maximum of the raw azimuth pattern; the stored elevation
pattern is normalized to its own peak (which is not carried into the
antenna gain — the gain is the azimuth peak alone). -/
theorem C5_pattern_normalization (wf : WaveformProp) (chs : List TxChannel)
    (txp : TxChannelProp) (h : process_txchannel_prop wf chs = .ok txp)
    (i : ℕ) (ch : TxChannel) (hch : chs.get? i = some ch) :
    txp.antenna_gains.get? i = some (listMaxD (ch.azimuth_pattern.getD [0, 0]) 0)
    ∧ (∃ p, txp.az_patterns.get? i = some p
        ∧ npMax p = .ok 0
        ∧ p = (ch.azimuth_pattern.getD [0, 0]).map
            (fun x => x - listMaxD (ch.azimuth_pattern.getD [0, 0]) 0))
    ∧ txp.el_patterns.get? i = some ((ch.elevation_pattern.getD [0, 0]).map
        (fun x => x - listMaxD (ch.elevation_pattern.getD [0, 0]) 0)) := by
  obtain ⟨rs, hm, hsize, hgains, hazp, help, hpol, hloc⟩ := process_txchannel_prop_eq_ok h
  obtain ⟨-, hpt⟩ := mapChannels_ok hm
  obtain ⟨r, hr, hri⟩ := hpt i ch hch
  obtain ⟨hgain, haz, hel, hazne, helne, -, -, -, -⟩ := processChannel_eq_ok hr
  refine ⟨?_, ⟨r.az_pattern, ?_, ?_, haz⟩, ?_⟩
  · rw [hgains, List.get?_map, hri, Option.map_some', hgain]
  · rw [hazp, List.get?_map, hri, Option.map_some']
  · rw [haz]
    exact npMax_map_sub_max hazne
  · rw [help, List.get?_map, hri, Option.map_some', hel]

/-- Waveform record with a single pulse of unit length, used for the
channel-stage witnesses. -/
def wf1 : WaveformProp :=
  { f := [0, 0], t := [0, 1], bandwidth := 0, pulse_length := 1, pulses := 1,
    f_offset := [0], prp := [1], pulse_start_time := [0] }

/-- Channel supplying azimuth pattern `[3, 7]` and elevation pattern
`[2, 5]`, used to witness C5. -/
def c5ch : TxChannel :=
  { location := [0, 0, 0], azimuth_pattern := some [3, 7],
    elevation_pattern := some [2, 5] }

/-- Channel record computed for `c5ch`. -/
noncomputable def c5txp : TxChannelProp :=
  { size := 1, delay := [0], grid := [1], locations := [[0, 0, 0]],
    polarization := [[0, 0, 1]],
    waveform_mod := [{ enabled := false, var := none, t := none }],
    pulse_mod := [[((1 : ℚ) : ℂ) * expj 0]],
    az_angles := [[-90, 90]], az_patterns := [[-4, 0]],
    el_angles := [[-90, 90]], el_patterns := [[-3, 0]],
    antenna_gains := [7] }

/-- Witness for C5 on `c5ch`: gain 7 (= max of raw azimuth pattern),
stored azimuth pattern `[-4, 0]` with maximum 0, stored elevation pattern
`[-3, 0]`. -/
theorem C5_pattern_normalization_witness :
    process_txchannel_prop wf1 [c5ch] = .ok c5txp
    ∧ ([c5ch].get? 0 = some c5ch)
    ∧ (c5txp.antenna_gains.get? 0 =
        some (listMaxD (c5ch.azimuth_pattern.getD [0, 0]) 0)
      ∧ (∃ p, c5txp.az_patterns.get? 0 = some p
          ∧ npMax p = .ok 0
          ∧ p = (c5ch.azimuth_pattern.getD [0, 0]).map
              (fun x => x - listMaxD (c5ch.azimuth_pattern.getD [0, 0]) 0))
      ∧ c5txp.el_patterns.get? 0 = some ((c5ch.elevation_pattern.getD [0, 0]).map
          (fun x => x - listMaxD (c5ch.elevation_pattern.getD [0, 0]) 0))) :=
  ⟨rfl, rfl, C5_pattern_normalization wf1 [c5ch] c5txp rfl 0 c5ch rfl⟩

/-- Channel supplying the right-handed circular polarization `[0, 1, 1j]`
documented by the source's docstring, as (re, im) pairs. -/
def c9ch : TxChannel :=
  { location := [0, 0, 0], polarization := some [(0, 0), (1, 0), (0, 1)] }

/-- Channel record computed for `c9ch`: the polarization row keeps only
the real parts because it is written into a `float64` array. -/
noncomputable def c9txp : TxChannelProp :=
  { size := 1, delay := [0], grid := [1], locations := [[0, 0, 0]],
    polarization := [[0, 1, 0]],
    waveform_mod := [{ enabled := false, var := none, t := none }],
    pulse_mod := [[((1 : ℚ) : ℂ) * expj 0]],
    az_angles := [[-90, 90]], az_patterns := [[0, 0]],
    el_angles := [[-90, 90]], el_patterns := [[0, 0]],
    antenna_gains := [0] }

/-- C9 (evaluation at the failing input): supplying the complex
polarization `[0, 1, 1j]` succeeds, but the stored per-channel
polarization row is `[0, 1, 0]` — the imaginary parts `[0, 0, 1]` of the
supplied vector are discarded by the cast into the `float64` polarization
array, so the supplied complex vector is not preserved. -/
theorem C9_polarization_discarded :
    process_txchannel_prop wf1 [c9ch] = .ok c9txp
    ∧ c9txp.polarization = [[0, 1, 0]]
    ∧ (c9ch.polarization.getD []).map Prod.snd = [0, 0, 1]
    ∧ (c9ch.polarization.getD []).map Prod.snd ≠ [0, 0, 0] :=
  ⟨rfl, rfl, rfl, by decide⟩

/-- Configuration built with an explicitly empty channel list. -/
noncomputable def c10cfg : Transmitter :=
  { rf_prop := { tx_power := 0, pn_f := none, pn_power := none },
    waveform_prop := wf1, txchannel_prop := emptyChannelProp }

/-- Counterexample to C10: construction with `channels = []` (an empty
list, not `None`) succeeds, producing a configuration with zero channels,
so `channel_count ≥ 1` is not an invariant of successful constructions. -/
theorem C10_counterexample :
    Transmitter.init (.scalar 0) (.scalar 1) 0 1 none none none none (some []) =
      .ok c10cfg
    ∧ c10cfg.txchannel_prop.size = 0 := ⟨rfl, rfl⟩

/-- C10 amended: when `channels` is `None` a single default channel at the
origin is supplied (so the channel count is 1); when an explicit channel
list is given — including the empty list, which is accepted — the channel
count equals its length. -/
theorem C10_amended_channel_count (f t : PyVal) (tx_power : ℚ) (pulses : ℕ)
    (prp f_offset : Option PyVal) (pn_f pn_power : Option (List ℚ)) :
    (∀ cfg, Transmitter.init f t tx_power pulses prp f_offset pn_f pn_power none = .ok cfg →
      cfg.txchannel_prop.size = 1 ∧ cfg.txchannel_prop.locations = [[0, 0, 0]])
    ∧ (∀ chs cfg,
        Transmitter.init f t tx_power pulses prp f_offset pn_f pn_power (some chs) = .ok cfg →
        cfg.txchannel_prop.size = chs.length) := by
  constructor
  · intro cfg hcfg
    obtain ⟨-, -, hc, -⟩ := init_eq_ok hcfg
    have hdef := process_default_channels_ok cfg.waveform_prop
    rw [show ((none : Option (List TxChannel)).getD defaultChannels) = defaultChannels
      from rfl] at hc
    rw [hdef] at hc
    simp only [Except.ok.injEq] at hc
    rw [← hc]
    exact ⟨rfl, rfl⟩
  · intro chs cfg hcfg
    obtain ⟨-, -, hc, -⟩ := init_eq_ok hcfg
    obtain ⟨rs, -, hsize, -⟩ := process_txchannel_prop_eq_ok hc
    exact hsize

/-- Configuration built with the implicit default channel (one pulse). -/
noncomputable def c10dcfg : Transmitter :=
  { rf_prop := { tx_power := 0, pn_f := none, pn_power := none },
    waveform_prop := wf1, txchannel_prop := defaultTxp wf1 }

/-- Witness for the amended C10: `channels = None` yields one channel at
the origin; `channels = []` yields zero channels. -/
theorem C10_amended_channel_count_witness :
    Transmitter.init (.scalar 0) (.scalar 1) 0 1 none none none none none = .ok c10dcfg
    ∧ (c10dcfg.txchannel_prop.size = 1
        ∧ c10dcfg.txchannel_prop.locations = [[0, 0, 0]])
    ∧ Transmitter.init (.scalar 0) (.scalar 1) 0 1 none none none none (some []) =
        .ok c10cfg
    ∧ c10cfg.txchannel_prop.size = ([] : List TxChannel).length :=
  ⟨rfl,
    (C10_amended_channel_count (.scalar 0) (.scalar 1) 0 1 none none none none).1
      c10dcfg rfl,
    rfl,
    (C10_amended_channel_count (.scalar 0) (.scalar 1) 0 1 none none none none).2
      [] c10cfg rfl⟩

end RadarSim
